import Mathlib

/-!
Shallow embedding of `src/index.ts` of the `vue-gtm` plugin (Vue 2 flavour).

The module wires the external `@gtm-support/core` analytics client into
Vue's plugin system and vue-router's `afterEach` hook.  We embed:

* JavaScript plain records (`Record<string, any>` and the `queryParams`
  records) as ordered association lists `Rec V := List (String × V)`,
  with `recSet` modelling JavaScript property assignment (replace the
  existing key in place, otherwise append at the end) and `recMerge a b`
  modelling the object spread `{...a, ...b}` (start from a copy of `a`,
  then assign every entry of `b` in order).
* `undefined`/absent values as `Option`.
* The externally owned `GtmPlugin` instance as an opaque token `Unit`;
  the only observables the glue code reads from it (`isInBrowserContext()`,
  `options.enabled`, `options.loadScript`) are modelled as the booleans of
  `InstallEnv`, since `@gtm-support/core` is a black-box dependency.
* The `afterEach` navigation handler as a pure function from the two
  navigation records to a `GuardOutcome`, and the runtime dispatch
  (`gtmPlugin?.trackView`, optionally wrapped in `Vue.nextTick`) as
  `navigationPhases`, which separates the calls made inside the
  synchronous handler from the calls made on the next scheduled tick.
-/

/-- A JavaScript plain record: ordered list of key/value properties. -/
def Rec (V : Type) : Type := List (String × V)

instance (V : Type) [DecidableEq V] : DecidableEq (Rec V) := by
  unfold Rec; infer_instance

instance (V : Type) : Inhabited (Rec V) := ⟨([] : List (String × V))⟩

/-- Property read `r[k]`: the value of the (unique) entry with key `k`. -/
def recGet {V : Type} : Rec V → String → Option V
  | [], _ => none
  | (k', v) :: r, k => if k' = k then some v else recGet r k

/-- JavaScript property assignment `r[k] = v` on an ordered record:
replace the existing entry in place, otherwise append at the end. -/
def recSet {V : Type} : Rec V → String → V → Rec V
  | [], k, v => [(k, v)]
  | (k', v') :: r, k, v =>
    if k' = k then (k, v) :: r else (k', v') :: recSet r k v

/-- The object spread `{...a, ...b}`: copy `a`, then assign each entry of
`b` in order (later entries win key-by-key). -/
def recMerge {V : Type} (a b : Rec V) : Rec V :=
  b.foldl (fun acc kv => recSet acc kv.1 kv.2) a

/-- The keys of a record. -/
def recKeys {V : Type} (r : Rec V) : List String :=
  r.map Prod.fst

/-- Route meta fields consumed by the guard (`to.meta.gtm`,
`to.meta.gtmAdditionalEventData`).  `gtm = none` models the field being
absent or not a string (the source checks `typeof to.meta.gtm === 'string'`). -/
structure RouteMeta (V : Type) where
  gtm : Option String := none
  gtmAdditionalEventData : Option (Rec V) := none
deriving DecidableEq

/-- A vue-router `Route` record, restricted to the fields the guard reads.
`name = none` models `to.name` being absent / not a string
(the source filters on `typeof to.name !== 'string'`). -/
structure Route (V : Type) where
  name : Option String
  fullPath : String
  meta : Option (RouteMeta V) := none
deriving DecidableEq

/-- The `ignoredViews` option: either an array of route names or a
predicate on `(to, from)`. -/
inductive IgnoredViews (V : Type) where
  | list (names : List String)
  | pred (f : Route V → Route V → Bool)

/-- The vue-router instance, restricted to what the guard reads:
`vueRouter.options.base` (absent modelled as `none`; the source applies
`?? ''`). -/
structure RouterModel where
  base : Option String := none
deriving DecidableEq

/-- One entry of `options.id` when it is an array: either a plain string
id or a `GtmIdContainer` (of which the source reads `id` and
`queryParams`; `queryParams = none` models `id.queryParams == null`). -/
inductive GtmIdEntry where
  | str (id : String)
  | container (id : String) (queryParams : Option (Rec String))
deriving DecidableEq

/-- The `options.id` field: a single string, or an array of entries
(the source branches on `Array.isArray(options.id)`). -/
inductive GtmId where
  | single (id : String)
  | list (ids : List GtmIdEntry)
deriving DecidableEq

/-- The `VueGtmUseOptions` configuration record, restricted to the fields
this module reads.  `none` models an absent field. -/
structure VueGtmUseOptions (V : Type) where
  id : GtmId
  queryParams : Option (Rec String) := none
  vueRouter : Option RouterModel := none
  vueRouterAdditionalEventData : Option (Route V → Route V → Rec V) := none
  ignoredViews : Option (IgnoredViews V) := none
  trackOnNextTick : Option Bool := none

/-- Observables of the externally constructed `GtmPlugin` singleton that
`install` reads: `gtmPlugin.isInBrowserContext()`,
`gtmPlugin.options.enabled` and `gtmPlugin.options.loadScript`.  They are
produced by the black-box `@gtm-support/core` dependency, so they are
modelled as environment booleans. -/
structure InstallEnv where
  isInBrowserContext : Bool
  enabled : Bool
  loadScript : Bool
deriving DecidableEq

/-- What one run of the `afterEach` handler decides to do: skip the
navigation, or track it with the given payload — `deferred = true` when
the `trackView` call is wrapped in `Vue.nextTick`. -/
inductive GuardOutcome (V : Type) where
  | skip
  | track (deferred : Bool) (name fullUrl : String) (data : Rec V)
deriving DecidableEq

/-- The ignore test of the handler, after `to.name` has been narrowed to
a string `toName`:
`(Array.isArray(ignoredViews) && ignoredViews.includes(to.name)) ||
 (typeof ignoredViews === 'function' && ignoredViews(to, from))`. -/
def ignoreMatches {V : Type} (ignoredViews : IgnoredViews V)
    (toRoute fromRoute : Route V) (toName : String) : Bool :=
  match ignoredViews with
  | .list names => names.contains toName
  | .pred f => f toRoute fromRoute

/-- The event-name derivation of the handler:
`to.meta && typeof to.meta.gtm === 'string' && !!to.meta.gtm ? to.meta.gtm : to.name`
(given that the filter already narrowed `to.name` to the string `toName`). -/
def gtmName {V : Type} (toRoute : Route V) (toName : String) : String :=
  match toRoute.meta with
  | some m =>
    match m.gtm with
    | some g => if g = "" then toName else g
    | none => toName
  | none => toName

/-- The record spread into the event data from the route meta:
`{...(to.meta?.gtmAdditionalEventData)}` — spreading `undefined`
contributes nothing, hence the `.getD []`. -/
def metaAdditionalEventData {V : Type} (toRoute : Route V) : Rec V :=
  (toRoute.meta.bind (fun m => m.gtmAdditionalEventData)).getD []

/-- `s.endsWith('/')`: the last character of `s` is `'/'`. -/
def stringEndsWithSlash (s : String) : Bool :=
  s.data.getLast? == some '/'

/-- `s.startsWith('/') ? s.substring(1) : s`: strip a single leading `'/'`. -/
def stripLeadingSlash (s : String) : String :=
  match s.data with
  | '/' :: rest => String.mk rest
  | _ => s

/-- The URL reconstruction of the handler:
`baseUrl = vueRouter.options.base ?? ''`; append `'/'` unless `baseUrl`
already ends with `'/'`; then append `to.fullPath` with a single leading
`'/'` stripped (`substring(1)`). -/
def buildFullUrl (base : Option String) (fullPath : String) : String :=
  let baseUrl : String := base.getD ""
  let fullUrl : String :=
    if stringEndsWithSlash baseUrl then baseUrl else baseUrl ++ "/"
  fullUrl ++ stripLeadingSlash fullPath

/-- The body of the `vueRouter.afterEach` callback registered by
`initVueRouterGuard`, as a pure function of the navigation records.
The awaited result of `deriveAdditionalEventData` is modelled as the
function's value; `trackOnNextTick` is the truthiness of the closed-over
option (`if (trackOnNextTick)`). -/
def afterEachHandler {V : Type} (ignoredViews : IgnoredViews V)
    (trackOnNextTick : Bool)
    (deriveAdditionalEventData : Route V → Route V → Rec V)
    (base : Option String) (toRoute fromRoute : Route V) : GuardOutcome V :=
  match toRoute.name with
  | none => GuardOutcome.skip
  | some toName =>
    if ignoreMatches ignoredViews toRoute fromRoute toName then GuardOutcome.skip
    else
      GuardOutcome.track trackOnNextTick (gtmName toRoute toName)
        (buildFullUrl base toRoute.fullPath)
        (recMerge (deriveAdditionalEventData toRoute fromRoute)
          (metaAdditionalEventData toRoute))

/-- Result of running `initVueRouterGuard`: whether the missing-router
console warning was emitted, and the handler registered via
`vueRouter.afterEach` (none when nothing was registered). -/
structure GuardSetup (V : Type) where
  warned : Bool
  handler : Option (Route V → Route V → GuardOutcome V)

/-- `initVueRouterGuard(Vue, vueRouter, ignoredViews, trackOnNextTick,
deriveAdditionalEventData)`.  `vueRouter = none` models a falsy router
argument (the `if (!vueRouter)` warning branch); the parameter defaults
`ignoredViews = []` and `deriveAdditionalEventData = () => ({})` apply
when the corresponding argument is `undefined`; `trackOnNextTick` has no
default and is used by truthiness. -/
def initVueRouterGuard {V : Type} (vueRouter : Option RouterModel)
    (ignoredViews : Option (IgnoredViews V))
    (trackOnNextTick : Option Bool)
    (deriveAdditionalEventData : Option (Route V → Route V → Rec V)) :
    GuardSetup V :=
  match vueRouter with
  | none => { warned := true, handler := none }
  | some router =>
    { warned := false
      handler := some (afterEachHandler
        (ignoredViews.getD (IgnoredViews.list []))
        (trackOnNextTick.getD false)
        (deriveAdditionalEventData.getD (fun _ _ => []))
        router.base) }

/-- `options = { trackOnNextTick: false, ...options }`: the supplied
options are spread over the default record, so a present field wins and
an absent `trackOnNextTick` becomes `false`. -/
def applyDefaultOptions {V : Type} (options : VueGtmUseOptions V) :
    VueGtmUseOptions V :=
  { options with trackOnNextTick := some (options.trackOnNextTick.getD false) }

/-- One `loadScript(id, conf)` invocation recorded during install. -/
structure ScriptLoad (V : Type) where
  id : String
  conf : VueGtmUseOptions V

/-- The sequence of `loadScript` calls made by the script-loading block of
`install` for a given (already defaulted) configuration.  A string entry
is loaded with the full configuration; a container entry is loaded with a
shallow copy whose `queryParams` are `{...options.queryParams,
...id.queryParams}` when `id.queryParams != null`. -/
def scriptLoadsFor {V : Type} (options : VueGtmUseOptions V) :
    List (ScriptLoad V) :=
  match options.id with
  | GtmId.list ids =>
    ids.map (fun entry =>
      match entry with
      | GtmIdEntry.str i => { id := i, conf := options }
      | GtmIdEntry.container i qp =>
        match qp with
        | none => { id := i, conf := options }
        | some q =>
          { id := i
            conf := { options with
              queryParams := some (recMerge (options.queryParams.getD []) q) } })
  | GtmId.single i => [{ id := i, conf := options }]

/-- Observable result of one `install(Vue, options)` call.
`gtmPluginAfter` is the module-level singleton reference after the call
(the constructed plugin modelled as the token `()`); `accessorsPublished`
records the assignment `Vue.prototype.$gtm = Vue.gtm = gtmPlugin`;
`effectiveOptions` is the defaulted configuration handed to the
`GtmPlugin` constructor; `guard` is `some` exactly when
`initVueRouterGuard` was invoked. -/
structure InstallResult (V : Type) where
  gtmPluginAfter : Option Unit
  accessorsPublished : Bool
  effectiveOptions : VueGtmUseOptions V
  guard : Option (GuardSetup V)
  scriptLoads : List (ScriptLoad V)

/-- `install(Vue, options = { id: '' })`.  `optionsArg = none` models the
options argument being entirely omitted (the default parameter
`{ id: '' }` applies). -/
def install {V : Type} (env : InstallEnv)
    (optionsArg : Option (VueGtmUseOptions V)) : InstallResult V :=
  let options := applyDefaultOptions (optionsArg.getD { id := GtmId.single "" })
  { gtmPluginAfter := some ()
    accessorsPublished := true
    effectiveOptions := options
    guard :=
      if env.isInBrowserContext then
        match options.vueRouter with
        | some router =>
          some (initVueRouterGuard (some router) options.ignoredViews
            options.trackOnNextTick options.vueRouterAdditionalEventData)
        | none => none
      else none
    scriptLoads :=
      if env.isInBrowserContext && env.enabled && env.loadScript then
        scriptLoadsFor options
      else [] }

/-- The module-level `let gtmPlugin: GtmPlugin | undefined;` before any
`install` call: `undefined`. -/
def gtmPluginInitial : Option Unit := none

/-- `useGtm()`: returns the current module-level singleton reference. -/
def useGtm (gtmPlugin : Option Unit) : Option Unit := gtmPlugin

/-- One `trackView(name, fullUrl, additionalEventData)` call. -/
structure TrackCall (V : Type) where
  name : String
  fullUrl : String
  data : Rec V
deriving DecidableEq

/-- The optional-chaining dispatch `gtmPlugin?.trackView(...)`: no call
(and no error) when the singleton is absent, one call otherwise. -/
def trackViewCalls {V : Type} (gtmPlugin : Option Unit)
    (name fullUrl : String) (data : Rec V) : List (TrackCall V) :=
  match gtmPlugin with
  | none => []
  | some _ => [{ name := name, fullUrl := fullUrl, data := data }]

/-- The dispatch step of the handler, split into the calls performed
inside the synchronous handler (first component) and the calls performed
by the `Vue.nextTick` callback after the handler returns (second
component). -/
def navigationPhases {V : Type} (gtmPlugin : Option Unit)
    (outcome : GuardOutcome V) : List (TrackCall V) × List (TrackCall V) :=
  match outcome with
  | GuardOutcome.skip => ([], [])
  | GuardOutcome.track deferred name fullUrl data =>
    if deferred then ([], trackViewCalls gtmPlugin name fullUrl data)
    else (trackViewCalls gtmPlugin name fullUrl data, [])

/-! ### Concrete inputs used by the claim witnesses -/

/-- A browser-context environment with tracking and script loading on. -/
def browserEnv : InstallEnv :=
  { isInBrowserContext := true, enabled := true, loadScript := true }

/-- A non-browser (e.g. SSG) environment, tracking and loading on. -/
def nonBrowserEnv : InstallEnv :=
  { isInBrowserContext := false, enabled := true, loadScript := true }

/-- A route carrying `meta.gtmAdditionalEventData = {x:2, y:3}`. -/
def exampleMetaRoute : Route Int :=
  { name := some "home", fullPath := "/p",
    meta := some { gtmAdditionalEventData := some [("x", 2), ("y", 3)] } }

/-- A plain route named `home`. -/
def exampleHomeRoute : Route Int :=
  { name := some "home", fullPath := "/h" }

/-- Options with a structured container id `{id:"GTM-1", queryParams:{a:"1"}}`
and global `queryParams = {a:"0", b:"2"}`. -/
def exampleContainerOptions : VueGtmUseOptions Int :=
  { id := GtmId.list [GtmIdEntry.container "GTM-1" (some [("a", "1")])]
    queryParams := some [("a", "0"), ("b", "2")] }

/-- Options supplying a router with base `/b`. -/
def exampleRouterOptions : VueGtmUseOptions Int :=
  { id := GtmId.single "GTM-X", vueRouter := some { base := some "/b" } }

/-- The guard setup `install` produces for `exampleRouterOptions`. -/
def exampleGuardSetup : GuardSetup Int :=
  initVueRouterGuard (some { base := some "/b" }) none (some false) none

/-! ### Lemmas about the record model -/

theorem recGet_recSet {V : Type} (a : Rec V) (k : String) (v : V) (k' : String) :
    recGet (recSet a k v) k' = if k' = k then some v else recGet a k' := by
  induction a with
  | nil =>
    by_cases h : k = k'
    · simp [recSet, recGet, h]
    · simp [recSet, recGet, h, Ne.symm h]
  | cons hd tl ih =>
    obtain ⟨k₀, v₀⟩ := hd
    by_cases h0 : k₀ = k
    · subst h0
      by_cases h1 : k₀ = k'
      · simp [recSet, recGet, h1]
      · simp [recSet, recGet, h1, Ne.symm h1]
    · by_cases h1 : k₀ = k'
      · subst h1
        simp [recSet, recGet, h0, Ne.symm h0]
      · by_cases h2 : k' = k
        · subst h2
          simp [recSet, recGet, h0, h1, ih]
        · simp [recSet, recGet, h0, h1, h2, ih]

theorem mem_recKeys_of_recGet {V : Type} {r : Rec V} {k : String} {v : V}
    (h : recGet r k = some v) : k ∈ recKeys r := by
  induction r with
  | nil => simp [recGet] at h
  | cons hd tl ih =>
    obtain ⟨k₀, v₀⟩ := hd
    by_cases h0 : k₀ = k
    · simp [recKeys, h0]
    · rw [recGet, if_neg h0] at h
      simpa [recKeys] using Or.inr (by simpa [recKeys] using ih h)

theorem recGet_recMerge {V : Type} (b : Rec V) (a : Rec V) (k : String)
    (hb : (recKeys b).Nodup) :
    recGet (recMerge a b) k =
      match recGet b k with
      | some v => some v
      | none => recGet a k := by
  induction b generalizing a with
  | nil => simp [recMerge, recGet]
  | cons hd tl ih =>
    obtain ⟨k₀, v₀⟩ := hd
    have hkey : recKeys ((k₀, v₀) :: tl) = k₀ :: recKeys tl := rfl
    rw [hkey, List.nodup_cons] at hb
    obtain ⟨hnotin, htl⟩ := hb
    have hstep : recMerge a ((k₀, v₀) :: tl) = recMerge (recSet a k₀ v₀) tl := rfl
    rw [hstep, ih (recSet a k₀ v₀) htl]
    by_cases h0 : k₀ = k
    · subst h0
      cases hgb : recGet tl k₀ with
      | none => simp [recGet, recGet_recSet, hgb]
      | some v => exact absurd (mem_recKeys_of_recGet hgb) hnotin
    · cases hgb : recGet tl k with
      | none => simp [recGet, h0, recGet_recSet, Ne.symm h0, hgb]
      | some v => simp [recGet, h0, hgb]

/-! ### Characterization of the navigation handler -/

theorem afterEachHandler_eq_track {V : Type} (ignoredViews : IgnoredViews V)
    (trackOnNextTick : Bool) (derive : Route V → Route V → Rec V)
    (base : Option String) (toRoute fromRoute : Route V) (toName : String)
    (hname : toRoute.name = some toName)
    (hignore : ignoreMatches ignoredViews toRoute fromRoute toName = false) :
    afterEachHandler ignoredViews trackOnNextTick derive base toRoute fromRoute =
      GuardOutcome.track trackOnNextTick (gtmName toRoute toName)
        (buildFullUrl base toRoute.fullPath)
        (recMerge (derive toRoute fromRoute) (metaAdditionalEventData toRoute)) := by
  unfold afterEachHandler
  rw [hname]
  simp [hignore]

/-! ### Claims -/

/-- C1 (counterexample): for `to.name = ""` — falsy in JavaScript but still
a string — with an empty ignore list, the handler does NOT skip: it
dispatches a synchronous `trackView("", "/x", {})` call, refuting the claim
that a falsy `to.name` suppresses tracking. -/
theorem c1_empty_name_counterexample :
    navigationPhases (some ())
      (afterEachHandler (V := Int) (IgnoredViews.list []) false (fun _ _ => [])
        none { name := some "", fullPath := "/x" }
        { name := some "", fullPath := "/x" })
      = ([{ name := "", fullUrl := "/x", data := [] }], []) := by
  decide

/-- C1 (amended): the handler skips the navigation (no tracking call) iff
`to.name` is not a string, or the `ignoredViews` list contains `to.name`,
or the `ignoredViews` predicate returns true on `(to, from)`; in all other
cases — including `to.name = ""`, which is falsy but passes the
`typeof to.name !== 'string'` check — it proceeds to dispatch. -/
theorem c1_guard_filter {V : Type} (ignoredViews : IgnoredViews V)
    (tnt : Bool) (derive : Route V → Route V → Rec V) (base : Option String)
    (toRoute fromRoute : Route V) :
    afterEachHandler ignoredViews tnt derive base toRoute fromRoute =
        GuardOutcome.skip ↔
      (toRoute.name = none ∨
        ∃ n, toRoute.name = some n ∧
          ignoreMatches ignoredViews toRoute fromRoute n = true) := by
  cases hname : toRoute.name with
  | none => simp [afterEachHandler, hname]
  | some n =>
    by_cases hig : ignoreMatches ignoredViews toRoute fromRoute n
    · simp [afterEachHandler, hname, hig]
    · simp [afterEachHandler, hname, hig]

/-- C1 (witness): the amended filter characterization at a concrete
navigation whose route name is in the ignore list. -/
theorem c1_guard_filter_witness :
    afterEachHandler (V := Int) (IgnoredViews.list ["home"]) false
        (fun _ _ => []) none { name := some "home", fullPath := "/h" }
        { name := some "start", fullPath := "/s" }
      = GuardOutcome.skip ↔
      (({ name := some "home", fullPath := "/h" } : Route Int).name = none ∨
        ∃ n, ({ name := some "home", fullPath := "/h" } : Route Int).name = some n ∧
          ignoreMatches (V := Int) (IgnoredViews.list ["home"])
            { name := some "home", fullPath := "/h" }
            { name := some "start", fullPath := "/s" } n = true) :=
  c1_guard_filter (IgnoredViews.list ["home"]) false (fun _ _ => []) none
    { name := some "home", fullPath := "/h" }
    { name := some "start", fullPath := "/s" }

/-- C2: for every navigation that passes the filter, the URL handed to the
dispatch is `buildFullUrl` of the router base and `to.fullPath`; an absent
base behaves like the empty string; and the three concrete examples of the
claim hold: base `""` with `"/a/b"` gives `"/a/b"`, base `"/app"` with
`"c"` gives `"/app/c"`, base `"/app/"` with `"/c"` gives `"/app/c"`. -/
theorem c2_full_url {V : Type} (ignoredViews : IgnoredViews V) (tnt : Bool)
    (derive : Route V → Route V → Rec V) (base : Option String)
    (toRoute fromRoute : Route V) (toName : String)
    (hname : toRoute.name = some toName)
    (hignore : ignoreMatches ignoredViews toRoute fromRoute toName = false) :
    (∃ nm data,
      afterEachHandler ignoredViews tnt derive base toRoute fromRoute =
        GuardOutcome.track tnt nm (buildFullUrl base toRoute.fullPath) data)
    ∧ (∀ p, buildFullUrl none p = buildFullUrl (some "") p)
    ∧ buildFullUrl (some "") "/a/b" = "/a/b"
    ∧ buildFullUrl (some "/app") "c" = "/app/c"
    ∧ buildFullUrl (some "/app/") "/c" = "/app/c" :=
  ⟨⟨_, _, afterEachHandler_eq_track ignoredViews tnt derive base toRoute
      fromRoute toName hname hignore⟩,
   fun _ => rfl, by decide, by decide, by decide⟩

/-- C2 (witness): the URL computation at a concrete filtered navigation
with base `/app` and full path `/c?q=1`. -/
theorem c2_full_url_witness :
    (∃ nm data,
      afterEachHandler (V := Int) (IgnoredViews.list []) false (fun _ _ => [])
          (some "/app") { name := some "page", fullPath := "/c?q=1" }
          { name := some "page", fullPath := "/c?q=1" }
        = GuardOutcome.track false nm
            (buildFullUrl (some "/app")
              ({ name := some "page", fullPath := "/c?q=1" } : Route Int).fullPath)
            data)
    ∧ (∀ p, buildFullUrl none p = buildFullUrl (some "") p)
    ∧ buildFullUrl (some "") "/a/b" = "/a/b"
    ∧ buildFullUrl (some "/app") "c" = "/app/c"
    ∧ buildFullUrl (some "/app/") "/c" = "/app/c" :=
  c2_full_url (IgnoredViews.list []) false (fun _ _ => []) (some "/app")
    { name := some "page", fullPath := "/c?q=1" }
    { name := some "page", fullPath := "/c?q=1" } "page" rfl rfl

/-- C3: for every navigation that passes the filter, the event name handed
to the dispatch is `to.meta.gtm` when `to.meta` exists and carries a
non-empty string `gtm` field, and `to.name` otherwise. -/
theorem c3_event_name {V : Type} (ignoredViews : IgnoredViews V) (tnt : Bool)
    (derive : Route V → Route V → Rec V) (base : Option String)
    (toRoute fromRoute : Route V) (toName : String)
    (hname : toRoute.name = some toName)
    (hignore : ignoreMatches ignoredViews toRoute fromRoute toName = false) :
    ∃ nm url data,
      afterEachHandler ignoredViews tnt derive base toRoute fromRoute =
        GuardOutcome.track tnt nm url data
      ∧ ((∃ m g, toRoute.meta = some m ∧ m.gtm = some g ∧ g ≠ "" ∧ nm = g)
        ∨ (¬(∃ m g, toRoute.meta = some m ∧ m.gtm = some g ∧ g ≠ "")
            ∧ nm = toName)) := by
  refine ⟨gtmName toRoute toName, _, _,
    afterEachHandler_eq_track ignoredViews tnt derive base toRoute fromRoute
      toName hname hignore, ?_⟩
  cases hm : toRoute.meta with
  | none =>
    right
    constructor
    · rintro ⟨m, g, hmm, -⟩
      exact Option.noConfusion hmm
    · simp [gtmName, hm]
  | some m =>
    cases hg : m.gtm with
    | none =>
      right
      constructor
      · rintro ⟨m', g', hm', hg', -⟩
        cases hm'
        rw [hg] at hg'
        exact Option.noConfusion hg'
      · simp [gtmName, hm, hg]
    | some g =>
      by_cases hge : g = ""
      · right
        constructor
        · rintro ⟨m', g', hm', hg', hne⟩
          cases hm'
          rw [hg] at hg'
          cases hg'
          exact hne hge
        · simp [gtmName, hm, hg, hge]
      · exact Or.inl ⟨m, g, rfl, hg, hge, by simp [gtmName, hm, hg, hge]⟩

/-- C3 (witness): with `to.meta.gtm = "Checkout"` and `to.name = "Home"`,
the dispatched event name is `"Checkout"`. -/
theorem c3_event_name_witness :
    ∃ nm url data,
      afterEachHandler (V := Int) (IgnoredViews.list []) false (fun _ _ => [])
          none
          { name := some "Home", fullPath := "/co",
            meta := some { gtm := some "Checkout" } }
          { name := some "Home", fullPath := "/co" }
        = GuardOutcome.track false nm url data
      ∧ ((∃ m g,
            ({ name := some "Home", fullPath := "/co",
               meta := some { gtm := some "Checkout" } } : Route Int).meta
              = some m ∧ m.gtm = some g ∧ g ≠ "" ∧ nm = g)
        ∨ (¬(∃ m g,
            ({ name := some "Home", fullPath := "/co",
               meta := some { gtm := some "Checkout" } } : Route Int).meta
              = some m ∧ m.gtm = some g ∧ g ≠ "")
            ∧ nm = "Home")) :=
  c3_event_name (IgnoredViews.list []) false (fun _ _ => []) none
    { name := some "Home", fullPath := "/co",
      meta := some { gtm := some "Checkout" } }
    { name := some "Home", fullPath := "/co" } "Home" rfl rfl

/-- C4: for every navigation that passes the filter, the event data handed
to the dispatch is `{...(await deriveAdditionalEventData(to, from)),
...to.meta.gtmAdditionalEventData}` — the route-meta record merged over
the deriver result, the meta value winning key-by-key — and the guard
built without a deriver uses the default deriver `() => ({})`. -/
theorem c4_event_data {V : Type} (ignoredViews : IgnoredViews V) (tnt : Bool)
    (derive : Route V → Route V → Rec V) (base : Option String)
    (toRoute fromRoute : Route V) (toName : String)
    (hname : toRoute.name = some toName)
    (hignore : ignoreMatches ignoredViews toRoute fromRoute toName = false)
    (hnodup : (recKeys (metaAdditionalEventData toRoute)).Nodup) :
    (∃ nm url,
      afterEachHandler ignoredViews tnt derive base toRoute fromRoute =
        GuardOutcome.track tnt nm url
          (recMerge (derive toRoute fromRoute)
            (metaAdditionalEventData toRoute)))
    ∧ (∀ k,
        recGet (recMerge (derive toRoute fromRoute)
          (metaAdditionalEventData toRoute)) k =
        match recGet (metaAdditionalEventData toRoute) k with
        | some v => some v
        | none => recGet (derive toRoute fromRoute) k)
    ∧ (∀ (router : RouterModel) (iv : Option (IgnoredViews V))
        (t : Option Bool),
        (initVueRouterGuard (some router) iv t none).handler =
          some (afterEachHandler (iv.getD (IgnoredViews.list []))
            (t.getD false) (fun _ _ => []) router.base)) :=
  ⟨⟨_, _, afterEachHandler_eq_track ignoredViews tnt derive base toRoute
      fromRoute toName hname hignore⟩,
   fun k => recGet_recMerge (metaAdditionalEventData toRoute)
     (derive toRoute fromRoute) k hnodup,
   fun _ _ _ => rfl⟩

/-- C4 (witness): deriver result `{x:1}` merged with route meta
`{x:2, y:3}` gives `{x:2, y:3}` (meta wins on the overlapping key `x`),
and the handler dispatches exactly that merged record. -/
theorem c4_event_data_witness :
    recMerge [("x", (1 : Int))] [("x", 2), ("y", 3)] = [("x", 2), ("y", 3)]
    ∧ (∃ nm url,
        afterEachHandler (V := Int) (IgnoredViews.list []) false
          (fun _ _ => [("x", 1)]) none exampleMetaRoute exampleMetaRoute =
          GuardOutcome.track false nm url
            (recMerge [("x", 1)] (metaAdditionalEventData exampleMetaRoute))) :=
  ⟨by decide,
   (c4_event_data (IgnoredViews.list []) false (fun _ _ => [("x", 1)]) none
     exampleMetaRoute exampleMetaRoute "home" rfl rfl (by decide)).1⟩

/-- C5: with tracking and script loading enabled in a browser context and a
list-valued `id`, each entry triggers one `loadScript` call: a string entry
with the full configuration, a container entry with a copy of the
configuration whose `queryParams` are the container's merged over the
global ones (container wins key-by-key) when they are non-null. -/
theorem c5_script_loading {V : Type} (env : InstallEnv)
    (opts : VueGtmUseOptions V) (ids : List GtmIdEntry)
    (hb : env.isInBrowserContext = true) (he : env.enabled = true)
    (hl : env.loadScript = true) (hid : opts.id = GtmId.list ids) :
    (install env (some opts)).scriptLoads =
      ids.map (fun entry =>
        match entry with
        | GtmIdEntry.str i => { id := i, conf := applyDefaultOptions opts }
        | GtmIdEntry.container i none =>
          { id := i, conf := applyDefaultOptions opts }
        | GtmIdEntry.container i (some q) =>
          { id := i
            conf := { applyDefaultOptions opts with
              queryParams := some (recMerge
                ((applyDefaultOptions opts).queryParams.getD []) q) } }) := by
  have hid2 : (applyDefaultOptions opts).id = GtmId.list ids := hid
  simp only [install, scriptLoadsFor, hb, he, hl, hid2, Option.getD_some,
    Bool.and_self, if_true]
  apply List.map_congr_left
  intro entry _
  cases entry with
  | str i => rfl
  | container i qp => cases qp <;> rfl

/-- C5 (witness): a structured id `{id:"GTM-1", queryParams:{a:"1"}}` with
global `queryParams = {a:"0", b:"2"}` is loaded with effective query
params `{a:"1", b:"2"}`. -/
theorem c5_script_loading_witness :
    ((install browserEnv (some exampleContainerOptions)).scriptLoads.map
        (fun l => (l.id, l.conf.queryParams)))
      = [("GTM-1", some [("a", "1"), ("b", "2")])]
    ∧ (install browserEnv (some exampleContainerOptions)).scriptLoads =
      [GtmIdEntry.container "GTM-1" (some [("a", "1")])].map (fun entry =>
        match entry with
        | GtmIdEntry.str i =>
          { id := i, conf := applyDefaultOptions exampleContainerOptions }
        | GtmIdEntry.container i none =>
          { id := i, conf := applyDefaultOptions exampleContainerOptions }
        | GtmIdEntry.container i (some q) =>
          { id := i
            conf := { applyDefaultOptions exampleContainerOptions with
              queryParams := some (recMerge
                ((applyDefaultOptions exampleContainerOptions).queryParams.getD [])
                q) } }) :=
  ⟨by decide,
   c5_script_loading browserEnv exampleContainerOptions
     [GtmIdEntry.container "GTM-1" (some [("a", "1")])] rfl rfl rfl rfl⟩

/-- C6: `install` spreads the supplied options over the default record
`{ trackOnNextTick: false }` — every supplied field wins, an absent
`trackOnNextTick` becomes `false` — and an entirely omitted options
argument yields the default configuration `{ id: '' }`. -/
theorem c6_option_defaults (V : Type) :
    (∀ (env : InstallEnv) (o : VueGtmUseOptions V),
      (install env (some o)).effectiveOptions =
        { o with trackOnNextTick := some (o.trackOnNextTick.getD false) })
    ∧ (∀ env : InstallEnv,
      (install (V := V) env none).effectiveOptions.id = GtmId.single "") :=
  ⟨fun _ _ => rfl, fun _ => rfl⟩

/-- C7: when `isInBrowserContext()` is false, `install` registers no router
guard and performs no `loadScript` call, whatever the `vueRouter`,
`enabled` and `loadScript` settings are; the singleton construction and
the two accessor assignments still happen. -/
theorem c7_non_browser_skips_wiring {V : Type} (env : InstallEnv)
    (optionsArg : Option (VueGtmUseOptions V))
    (h : env.isInBrowserContext = false) :
    (install env optionsArg).guard = none
    ∧ (install env optionsArg).scriptLoads = []
    ∧ (install env optionsArg).gtmPluginAfter = some ()
    ∧ (install env optionsArg).accessorsPublished = true := by
  refine ⟨?_, ?_, rfl, rfl⟩ <;> simp [install, h]

/-- C7 (witness): a non-browser environment with tracking and script
loading enabled and a router supplied still wires nothing. -/
theorem c7_non_browser_witness :
    (install nonBrowserEnv (some exampleRouterOptions)).guard = none
    ∧ (install nonBrowserEnv (some exampleRouterOptions)).scriptLoads = []
    ∧ (install nonBrowserEnv (some exampleRouterOptions)).gtmPluginAfter
        = some ()
    ∧ (install nonBrowserEnv (some exampleRouterOptions)).accessorsPublished
        = true :=
  c7_non_browser_skips_wiring nonBrowserEnv (some exampleRouterOptions) rfl

/-- C8: before any `install` call the singleton is `undefined`, so
`useGtm()` returns an absent value, and the optional-chaining dispatch
`gtmPlugin?.trackView(...)` makes no call (and, being a total function in
this model, raises no error) in both the synchronous and the deferred
next-tick path. -/
theorem c8_missing_plugin_safe :
    useGtm gtmPluginInitial = none
    ∧ (∀ outcome : GuardOutcome Int, navigationPhases none outcome = ([], []))
    ∧ (∀ (deferred : Bool) (nm url : String) (data : Rec Int),
        navigationPhases none (GuardOutcome.track deferred nm url data)
          = ([], [])) := by
  refine ⟨rfl, ?_, ?_⟩
  · intro outcome
    cases outcome with
    | skip => rfl
    | track d nm url data => cases d <;> rfl
  · intro d nm url data
    cases d <;> rfl

/-- C9: for a navigation that passes the filter, with `trackOnNextTick`
set the `trackView` call happens only in the next-tick phase (the
synchronous phase makes no call), and with it unset the call happens
synchronously in the handler (the next-tick phase makes no call). -/
theorem c9_track_on_next_tick {V : Type} (ignoredViews : IgnoredViews V)
    (derive : Route V → Route V → Rec V) (base : Option String)
    (toRoute fromRoute : Route V) (toName : String) (gtm : Option Unit)
    (hname : toRoute.name = some toName)
    (hignore : ignoreMatches ignoredViews toRoute fromRoute toName = false) :
    ((navigationPhases gtm
        (afterEachHandler ignoredViews true derive base toRoute fromRoute)).1
        = []
     ∧ (navigationPhases gtm
        (afterEachHandler ignoredViews true derive base toRoute fromRoute)).2
        = trackViewCalls gtm (gtmName toRoute toName)
            (buildFullUrl base toRoute.fullPath)
            (recMerge (derive toRoute fromRoute)
              (metaAdditionalEventData toRoute)))
    ∧ ((navigationPhases gtm
        (afterEachHandler ignoredViews false derive base toRoute fromRoute)).1
        = trackViewCalls gtm (gtmName toRoute toName)
            (buildFullUrl base toRoute.fullPath)
            (recMerge (derive toRoute fromRoute)
              (metaAdditionalEventData toRoute))
     ∧ (navigationPhases gtm
        (afterEachHandler ignoredViews false derive base toRoute fromRoute)).2
        = []) := by
  rw [afterEachHandler_eq_track ignoredViews true derive base toRoute
      fromRoute toName hname hignore,
    afterEachHandler_eq_track ignoredViews false derive base toRoute
      fromRoute toName hname hignore]
  exact ⟨⟨rfl, rfl⟩, rfl, rfl⟩

/-- C9 (witness): the phase split at a concrete filtered navigation with
the singleton present. -/
theorem c9_track_on_next_tick_witness :
    ((navigationPhases (some ())
        (afterEachHandler (IgnoredViews.list []) true
          (fun _ _ => []) none exampleHomeRoute exampleHomeRoute)).1 = []
     ∧ (navigationPhases (some ())
        (afterEachHandler (IgnoredViews.list []) true
          (fun _ _ => []) none exampleHomeRoute exampleHomeRoute)).2
        = trackViewCalls (some ()) (gtmName exampleHomeRoute "home")
            (buildFullUrl none exampleHomeRoute.fullPath)
            (recMerge [] (metaAdditionalEventData exampleHomeRoute)))
    ∧ ((navigationPhases (some ())
        (afterEachHandler (IgnoredViews.list []) false
          (fun _ _ => []) none exampleHomeRoute exampleHomeRoute)).1
        = trackViewCalls (some ()) (gtmName exampleHomeRoute "home")
            (buildFullUrl none exampleHomeRoute.fullPath)
            (recMerge [] (metaAdditionalEventData exampleHomeRoute))
     ∧ (navigationPhases (some ())
        (afterEachHandler (IgnoredViews.list []) false
          (fun _ _ => []) none exampleHomeRoute exampleHomeRoute)).2 = []) :=
  c9_track_on_next_tick (IgnoredViews.list []) (fun _ _ => []) none
    exampleHomeRoute exampleHomeRoute "home" (some ()) rfl rfl

/-- C10: `install` invokes `initVueRouterGuard` only for a present
`vueRouter` option, so the missing-router warning is unreachable through
`install`: an absent router means no guard call at all, and any guard call
made by `install` neither warns nor skips registration; the
warning-and-no-registration branch fires only on a direct
`initVueRouterGuard` call with a falsy router. -/
theorem c10_warning_unreachable (V : Type) :
    (∀ (env : InstallEnv) (optionsArg : Option (VueGtmUseOptions V)),
      (optionsArg.getD { id := GtmId.single "" }).vueRouter = none →
        (install env optionsArg).guard = none)
    ∧ (∀ (env : InstallEnv) (optionsArg : Option (VueGtmUseOptions V))
        (g : GuardSetup V),
      (install env optionsArg).guard = some g →
        g.warned = false ∧ g.handler.isSome = true)
    ∧ (∀ (ignoredViews : Option (IgnoredViews V)) (tnt : Option Bool)
        (derive : Option (Route V → Route V → Rec V)),
      initVueRouterGuard none ignoredViews tnt derive =
        { warned := true, handler := none }) := by
  refine ⟨?_, ?_, fun _ _ _ => rfl⟩
  · intro env optionsArg h
    have h2 : (applyDefaultOptions
        (optionsArg.getD { id := GtmId.single "" })).vueRouter = none := h
    cases hb : env.isInBrowserContext <;> simp [install, hb, h2]
  · intro env optionsArg g hg
    revert hg
    cases hb : env.isInBrowserContext with
    | false => simp [install, hb]
    | true =>
      cases hv : (applyDefaultOptions
          (optionsArg.getD { id := GtmId.single "" })).vueRouter with
      | none => simp [install, hb, hv]
      | some router =>
        simp [install, hb, hv, initVueRouterGuard]
        rintro rfl
        exact ⟨rfl, rfl⟩

/-- C10 (witness): with no router option no guard call happens; the guard
call made by `install` for a present router does not warn and does
register; and a direct `initVueRouterGuard` call with a falsy router
warns and registers nothing. -/
theorem c10_warning_unreachable_witness :
    (install (V := Int) browserEnv none).guard = none
    ∧ (exampleGuardSetup.warned = false
        ∧ exampleGuardSetup.handler.isSome = true)
    ∧ initVueRouterGuard (V := Int) none none none none =
        { warned := true, handler := none } :=
  ⟨(c10_warning_unreachable Int).1 browserEnv none rfl,
   (c10_warning_unreachable Int).2.1 browserEnv (some exampleRouterOptions)
     exampleGuardSetup rfl,
   (c10_warning_unreachable Int).2.2 none none none⟩
